import Mathlib

/-!
Verification of the `flights_metrics` ETL pipeline
(`src/flights_pipeline/utils/transform_utils.py`,
`src/flights_pipeline/utils/api_client.py`,
`src/flights_pipeline/assets/gold/__init__.py`).

Shallow embedding conventions:
* A pandas `DataFrame` is a `List` of row structures; a cell that can be
  missing (`NaN`/`NaT`/`None`) is an `Option`.
* Timestamps and timedeltas are integer minutes (`pandas` stores
  `datetime64[ns]` as an integer count; minutes keep the examples readable).
  `standardize_time_columns` only relabels the same instants into the
  Europe/Paris timezone, so it is the identity on this representation and
  `hourOf`/`weekdayOf` read the stored (local) value.
* Python strings are `List Char`; `str.strip`, `str.lower`, `str.upper`
  and `str.replace(" ", "_")` are modelled character-wise on ASCII
  (column names and airport/airline codes in this pipeline are ASCII).
-/

namespace FlightsPipeline

/-- Python strings, modelled as lists of characters. -/
abbrev PyStr := List Char

/-- The whitespace characters removed by Python `str.strip()`. -/
def pyIsSpace (c : Char) : Bool :=
  c == ' ' || c == '\t' || c == '\n' || c == '\r' || c == '\x0b' || c == '\x0c'

/-- Python `str.strip()`: drop leading and trailing whitespace. -/
def pyStrip (s : PyStr) : PyStr :=
  ((s.dropWhile pyIsSpace).reverse.dropWhile pyIsSpace).reverse

/-- The 26 ASCII uppercase/lowercase letter pairs, driving `str.lower` and
`str.upper` on the ASCII range. -/
def pairsUL : List (Char × Char) :=
  [('A','a'), ('B','b'), ('C','c'), ('D','d'), ('E','e'), ('F','f'), ('G','g'),
   ('H','h'), ('I','i'), ('J','j'), ('K','k'), ('L','l'), ('M','m'), ('N','n'),
   ('O','o'), ('P','p'), ('Q','q'), ('R','r'), ('S','s'), ('T','t'), ('U','u'),
   ('V','v'), ('W','w'), ('X','x'), ('Y','y'), ('Z','z')]

/-- Python `str.lower()` on one character. -/
def pyLowerChar (c : Char) : Char :=
  match pairsUL.find? (fun p => p.1 == c) with
  | some p => p.2
  | none => c

/-- Python `str.lower()`. -/
def pyLower (s : PyStr) : PyStr := s.map pyLowerChar

/-- Python `str.upper()` on one character. -/
def pyUpperChar (c : Char) : Char :=
  match pairsUL.find? (fun p => p.2 == c) with
  | some p => p.1
  | none => c

/-- Python `str.upper()`. -/
def pyUpper (s : PyStr) : PyStr := s.map pyUpperChar

/-- One character of `str.replace(" ", "_")` (a one-character pattern
replacement acts character-wise). -/
def underscoreChar (c : Char) : Char := if c == ' ' then '_' else c

/-- Python `str.replace(" ", "_")`. -/
def replaceSpaces (s : PyStr) : PyStr := s.map underscoreChar

/-- `transform_utils.standardize_column_names`, acting on one column name:
`col.strip().lower().replace(" ", "_")`. -/
def standardizeName (col : PyStr) : PyStr := replaceSpaces (pyLower (pyStrip col))

/-- `transform_utils.standardize_column_names`: the new list of column names
(`[col.strip().lower().replace(" ", "_") for col in dataframe.columns]`). -/
def standardize_column_names (cols : List PyStr) : List PyStr :=
  cols.map standardizeName

-- Character-level facts, decidable because the case table is finite.

theorem pyLowerChar_fix_of_mem : ∀ p ∈ pairsUL, pyLowerChar p.2 = p.2 := by decide

theorem pyLowerChar_nonspace_of_mem : ∀ p ∈ pairsUL, pyIsSpace p.2 = false := by decide

theorem pyLowerChar_idem (c : Char) : pyLowerChar (pyLowerChar c) = pyLowerChar c := by
  cases hf : pairsUL.find? (fun p => p.1 == c) with
  | none => simp [pyLowerChar, hf]
  | some p =>
    have hmem := List.mem_of_find?_eq_some hf
    have hfix := pyLowerChar_fix_of_mem p hmem
    simp [pyLowerChar, hf] at hfix ⊢
    simpa [pyLowerChar] using hfix

theorem pyLowerChar_nonspace (c : Char) (h : pyIsSpace c = false) :
    pyIsSpace (pyLowerChar c) = false := by
  cases hf : pairsUL.find? (fun p => p.1 == c) with
  | none => simpa [pyLowerChar, hf] using h
  | some p =>
    have hmem := List.mem_of_find?_eq_some hf
    have := pyLowerChar_nonspace_of_mem p hmem
    simpa [pyLowerChar, hf] using this

theorem underscoreChar_nonspace (c : Char) (h : pyIsSpace c = false) :
    pyIsSpace (underscoreChar c) = false := by
  by_cases hc : c = ' '
  · subst hc; decide
  · simpa [underscoreChar, hc] using h

theorem underscoreChar_idem (c : Char) :
    underscoreChar (underscoreChar c) = underscoreChar c := by
  by_cases hc : c = ' '
  · subst hc; decide
  · simp [underscoreChar, hc]

theorem pyLowerChar_underscoreChar (c : Char) :
    pyLowerChar (underscoreChar (pyLowerChar c)) = underscoreChar (pyLowerChar c) := by
  by_cases hd : pyLowerChar c = ' '
  · rw [hd]; decide
  · have h' : ¬ ((pyLowerChar c == ' ') = true) := by simpa using hd
    simp only [underscoreChar, if_neg h']
    exact pyLowerChar_idem c

/-- The character map applied by `standardizeName` after stripping. -/
def stdChar (c : Char) : Char := underscoreChar (pyLowerChar c)

theorem stdChar_idem (c : Char) : stdChar (stdChar c) = stdChar c := by
  unfold stdChar
  rw [pyLowerChar_underscoreChar, underscoreChar_idem]

theorem stdChar_nonspace (c : Char) (h : pyIsSpace c = false) :
    pyIsSpace (stdChar c) = false :=
  underscoreChar_nonspace _ (pyLowerChar_nonspace _ h)

-- dropWhile / strip facts.

theorem head?_dropWhile_nonspace (p : Char → Bool) (l : List Char) :
    ∀ c, (l.dropWhile p).head? = some c → p c = false := by
  induction l with
  | nil => intro c h; simp at h
  | cons a t ih =>
    intro c h
    by_cases hp : p a
    · rw [List.dropWhile_cons, if_pos hp] at h
      exact ih c h
    · rw [List.dropWhile_cons, if_neg hp] at h
      simp at h
      rw [← h]
      simpa using hp

theorem getLast?_dropWhile (p : Char → Bool) (l : List Char) :
    ∀ c, (l.dropWhile p).getLast? = some c → l.getLast? = some c := by
  induction l with
  | nil => intro c h; simp at h
  | cons a t ih =>
    intro c h
    by_cases hp : p a
    · rw [List.dropWhile_cons, if_pos hp] at h
      have ht := ih c h
      cases t with
      | nil => simp at ht
      | cons b t' => rw [List.getLast?_cons_cons]; exact ht
    · rwa [List.dropWhile_cons, if_neg hp] at h

theorem dropWhile_eq_self_of_head (p : Char → Bool) (l : List Char)
    (h : ∀ c, l.head? = some c → p c = false) : l.dropWhile p = l := by
  cases l with
  | nil => rfl
  | cons a t =>
    have := h a (by simp)
    simp [List.dropWhile_cons, this]

theorem getLast?_reverse_eq_head? (l : List Char) : l.reverse.getLast? = l.head? := by
  rw [← List.head?_reverse, List.reverse_reverse]

theorem pyStrip_head (s : PyStr) :
    ∀ c, (pyStrip s).head? = some c → pyIsSpace c = false := by
  intro c h
  unfold pyStrip at h
  rw [List.head?_reverse] at h
  have h2 := getLast?_dropWhile pyIsSpace _ c h
  rw [getLast?_reverse_eq_head?] at h2
  exact head?_dropWhile_nonspace pyIsSpace s c h2

theorem pyStrip_getLast (s : PyStr) :
    ∀ c, (pyStrip s).getLast? = some c → pyIsSpace c = false := by
  intro c h
  unfold pyStrip at h
  rw [getLast?_reverse_eq_head?] at h
  exact head?_dropWhile_nonspace pyIsSpace _ c h

theorem pyStrip_eq_self (t : PyStr)
    (h1 : ∀ c, t.head? = some c → pyIsSpace c = false)
    (h2 : ∀ c, t.getLast? = some c → pyIsSpace c = false) : pyStrip t = t := by
  unfold pyStrip
  rw [dropWhile_eq_self_of_head pyIsSpace t h1]
  rw [dropWhile_eq_self_of_head pyIsSpace t.reverse (by
    intro c hc
    rw [List.head?_reverse] at hc
    exact h2 c hc)]
  exact List.reverse_reverse t

theorem standardizeName_as_map (s : PyStr) :
    standardizeName s = (pyStrip s).map stdChar := by
  unfold standardizeName replaceSpaces pyLower stdChar
  rw [List.map_map]
  rfl

theorem standardizeName_idem (s : PyStr) :
    standardizeName (standardizeName s) = standardizeName s := by
  rw [standardizeName_as_map s]
  have hstrip : pyStrip ((pyStrip s).map stdChar) = (pyStrip s).map stdChar := by
    apply pyStrip_eq_self
    · intro c hc
      rw [List.head?_map] at hc
      cases hh : (pyStrip s).head? with
      | none => rw [hh] at hc; simp at hc
      | some c0 =>
        rw [hh] at hc
        simp at hc
        rw [← hc]
        exact stdChar_nonspace c0 (pyStrip_head s c0 hh)
    · intro c hc
      rw [List.getLast?_map] at hc
      cases hh : (pyStrip s).getLast? with
      | none => rw [hh] at hc; simp at hc
      | some c0 =>
        rw [hh] at hc
        simp at hc
        rw [← hc]
        exact stdChar_nonspace c0 (pyStrip_getLast s c0 hh)
  rw [standardizeName_as_map ((pyStrip s).map stdChar), hstrip, List.map_map]
  apply List.map_congr_left
  intro a _
  exact stdChar_idem a

/-- Claim C10: `standardize_column_names` is idempotent — applying it twice to
any list of column names yields the same names as applying it once, so
re-running it on an already-standardized table is a no-op. -/
theorem standardize_column_names_idempotent (cols : List PyStr) :
    standardize_column_names (standardize_column_names cols) =
      standardize_column_names cols := by
  unfold standardize_column_names
  rw [List.map_map]
  apply List.map_congr_left
  intro a _
  exact standardizeName_idem a

/-- Witness for C10 at a concrete table: a messy column name reaches a fixed
point after one pass. -/
theorem standardize_column_names_idempotent_witness :
    standardize_column_names
        (standardize_column_names [[' ', 'F', 'l', 'i', 'g', 'h', 't', ' ', 'D', 'a', 't', 'e', ' ']]) =
      standardize_column_names [[' ', 'F', 'l', 'i', 'g', 'h', 't', ' ', 'D', 'a', 't', 'e', ' ']] :=
  standardize_column_names_idempotent _

-- ---------- Flight data model ----------

-- Timestamps and timedeltas are plain integers (minutes since the epoch;
-- see the file header).

/-- Day number of a timestamp, as read by `.dt.date`. -/
def dateOf (t : ℤ) : ℤ := Int.ediv t 1440

/-- Hour of day of a timestamp, as read by `.dt.hour` (always in `[0, 24)`). -/
def hourOf (t : ℤ) : ℤ := Int.emod (Int.ediv t 60) 24

/-- Weekday of a timestamp, as read by `.dt.weekday` (Monday = 0; the epoch
day 0 is a Thursday, weekday 3). -/
def weekdayOf (t : ℤ) : ℤ := Int.emod (dateOf t + 3) 7

/-- One row of the flights table after `rename_flight_columns`, with the
canonical column names. `none` is a missing value (`NaN`/`NaT`/`None`).
The pass-through columns `flight_icao`, `estimated_departure_time`,
`airline_icao_code`, `created_at` and `updated_at` are omitted: no cleaning
rule reads them (`created_at`/`updated_at` are overwritten at the end of
`clean_aviation_data`, after deduplication). -/
structure FlightRow where
  flight_number : Option PyStr
  flight_date : Option ℤ
  departure_airport_icao : Option PyStr
  arrival_airport_icao : Option PyStr
  scheduled_departure_time : Option ℤ
  actual_departure_time : Option ℤ
  airline_name : Option PyStr
  airline_iata_code : Option PyStr
  deriving DecidableEq

/-- Python `str(x)` on a cell of an object-dtype column, as applied by
`astype(str)`: a present string is unchanged, a missing value becomes the
literal string `"nan"` (`str(float("nan"))`; a SQL-sourced `None` would
become `"None"` — either way a non-null literal). The string columns of this
pipeline are object dtype: they come from `DataFrame.from_records` /
`read_sql` holding Python `str`/`None` objects. -/
def pyStrOfCell (c : Option PyStr) : PyStr :=
  match c with
  | some s => s
  | none => ['n', 'a', 'n']

/-- `clean_aviation_data`, step "Strip whitespace from string columns":
`flight_df[col] = flight_df[col].astype(str).str.strip()` over the
object-dtype columns. -/
def stripRow (r : FlightRow) : FlightRow :=
  { r with
    flight_number := some (pyStrip (pyStrOfCell r.flight_number)),
    departure_airport_icao := some (pyStrip (pyStrOfCell r.departure_airport_icao)),
    arrival_airport_icao := some (pyStrip (pyStrOfCell r.arrival_airport_icao)),
    airline_name := some (pyStrip (pyStrOfCell r.airline_name)),
    airline_iata_code := some (pyStrip (pyStrOfCell r.airline_iata_code)) }

/-- `clean_aviation_data`, step "Uppercase important ID fields"
(`aircraft_icao24` is never a column after renaming, so its branch is
skipped; `.str.upper()` leaves missing cells missing). -/
def upperIdRow (r : FlightRow) : FlightRow :=
  { r with
    flight_number := r.flight_number.map pyUpper,
    departure_airport_icao := r.departure_airport_icao.map pyUpper,
    arrival_airport_icao := r.arrival_airport_icao.map pyUpper }

/-- `clean_aviation_data`, step "Remove rows with future flight_date":
`flight_df[flight_df["flight_date"].dt.date <= today]` (a `NaT` date
compares false and is dropped). -/
def dropFutureDated (today : ℤ) (df : List FlightRow) : List FlightRow :=
  df.filter (fun r =>
    match r.flight_date with
    | some d => decide (dateOf d ≤ today)
    | none => false)

/-- `clean_aviation_data`, step "Drop rows with missing critical values":
`dropna(subset=["flight_number", "scheduled_departure_time",
"departure_airport_icao", "arrival_airport_icao"])`. -/
def dropMissingCritical (df : List FlightRow) : List FlightRow :=
  df.filter (fun r =>
    r.flight_number.isSome && r.scheduled_departure_time.isSome &&
    r.departure_airport_icao.isSome && r.arrival_airport_icao.isSome)

/-- `clean_aviation_data`, step "Remove invalid rows where actual departure
is before scheduled": keep rows with `actual.isna()` or
`actual >= scheduled` (a comparison against `NaT` is false). -/
def dropEarlyActual (df : List FlightRow) : List FlightRow :=
  df.filter (fun r =>
    match r.actual_departure_time, r.scheduled_departure_time with
    | none, _ => true
    | some a, some s => decide (s ≤ a)
    | some _, none => false)

/-- `clean_aviation_data`, step "Replace missing airline info with
'undefined'": `fillna("undefined")` on `airline_name` and
`airline_iata_code`. -/
def fillAirlineRow (r : FlightRow) : FlightRow :=
  { r with
    airline_name := some (r.airline_name.getD ['u','n','d','e','f','i','n','e','d']),
    airline_iata_code := some (r.airline_iata_code.getD ['u','n','d','e','f','i','n','e','d']) }

/-- `drop_duplicates()`: keep the first occurrence of each row value. -/
def dedupSeen : List FlightRow → List FlightRow → List FlightRow
  | [], _ => []
  | r :: rs, seen =>
    if r ∈ seen then dedupSeen rs seen else r :: dedupSeen rs (r :: seen)

/-- `transform_utils.clean_aviation_data`, with the clock
(`pd.Timestamp("now").date()`) passed in as `today`. Column
renaming/standardization is the identity on this model (the fields already
carry canonical names), and `standardize_time_columns` is the identity on
the integer-minute representation (see the file header). The final
`drop(columns=...)` and `created_at`/`updated_at` stamping touch only
omitted columns. -/
def clean_aviation_data (today : ℤ) (flight_df : List FlightRow) : List FlightRow :=
  dedupSeen
    ((dropEarlyActual
        (dropMissingCritical
          (((dropFutureDated today flight_df).map stripRow).map upperIdRow))).map
      fillAirlineRow)
    []

-- ---------- Imputation ----------

/-- Insertion of one element into a sorted list (model of sorting for the
median computation). -/
def insertSorted (x : ℤ) : List ℤ → List ℤ
  | [] => [x]
  | y :: ys => if x ≤ y then x :: y :: ys else y :: insertSorted x ys

/-- Sorting, as used by the pandas `median`. -/
def sortList : List ℤ → List ℤ
  | [] => []
  | x :: xs => insertSorted x (sortList xs)

/-- `Series.median()` over a list of timedeltas: the middle element of the
sorted values for an odd count, the mean of the two middle elements for an
even count, missing for an empty list. (The mean of two integer minute
values is truncated to the representation unit, as pandas truncates to
nanoseconds.) -/
def median (l : List ℤ) : Option ℤ :=
  let s := sortList l
  let n := s.length
  if n = 0 then none
  else if n % 2 = 1 then s.get? (n / 2)
  else
    match s.get? (n / 2 - 1), s.get? (n / 2) with
    | some a, some b => some ((a + b) / 2)
    | _, _ => none

/-- The `(actual - scheduled)` durations of the completed flights of one
`(departure_airport_icao, arrival_airport_icao)` route:
`dropna(subset=["actual_departure_time"]).groupby([...])` drops rows whose
key contains a missing code, and the median skips a `NaT` duration coming
from a missing scheduled time (`skipna`; a group whose durations are all
`NaT` gets a `NaT` median, which imputes nothing — the same observable
behaviour as having no median). -/
def completedDurations (df : List FlightRow) (key : PyStr × PyStr) : List ℤ :=
  df.filterMap (fun r =>
    match r.departure_airport_icao, r.arrival_airport_icao,
          r.actual_departure_time, r.scheduled_departure_time with
    | some d, some a, some act, some sch =>
      if (d, a) = key then some (act - sch) else none
    | _, _, _, _ => none)

/-- The row function `impute` inside `impute_missing_actual_times`: a row
missing its actual time on a route with a median duration gets
`scheduled + median` (a missing scheduled time stays missing:
`NaT + median = NaT`); every other row keeps its actual time. -/
def imputeRow (df : List FlightRow) (r : FlightRow) : FlightRow :=
  match r.departure_airport_icao, r.arrival_airport_icao with
  | some d, some a =>
    if r.actual_departure_time = none then
      match median (completedDurations df (d, a)) with
      | some m =>
        { r with actual_departure_time := r.scheduled_departure_time.map (fun s => s + m) }
      | none => r
    else r
  | _, _ => r

/-- `transform_utils.impute_missing_actual_times` (the `to_datetime`
coercions are the identity here: the cells already hold parsed times). -/
def impute_missing_actual_times (flight_df : List FlightRow) : List FlightRow :=
  flight_df.map (imputeRow flight_df)

-- ---------- Cancellation filter ----------

/-- `transform_utils.remove_cancelled_flights`, with the clock passed in as
`now`: drop rows with a missing actual time whose scheduled time is more
than 1 day (1440 minutes) in the past (`now - NaT > timedelta` is false, so
rows with a missing scheduled time are kept). -/
def remove_cancelled_flights (now : ℤ) (flight_df : List FlightRow) : List FlightRow :=
  flight_df.filter (fun r =>
    ! (r.actual_departure_time.isNone &&
       (match r.scheduled_departure_time with
        | some s => decide (now - s > 1440)
        | none => false)))

-- ---------- Lemmas about the cleaning pipeline ----------

theorem mem_dedupSeen (x : FlightRow) (l : List FlightRow) :
    ∀ seen : List FlightRow, x ∈ dedupSeen l seen → x ∈ l := by
  induction l with
  | nil => intro seen h; simp [dedupSeen] at h
  | cons r rs ih =>
    intro seen h
    rw [dedupSeen] at h
    by_cases hseen : r ∈ seen
    · rw [if_pos hseen] at h
      exact List.mem_cons_of_mem r (ih seen h)
    · rw [if_neg hseen] at h
      rcases List.mem_cons.mp h with h1 | h2
      · exact h1 ▸ List.mem_cons_self r rs
      · exact List.mem_cons_of_mem r (ih (r :: seen) h2)

theorem clean_aviation_data_sound (today : ℤ) (df : List FlightRow) (r : FlightRow)
    (h : r ∈ clean_aviation_data today df) :
    r.flight_number ≠ none ∧ r.scheduled_departure_time ≠ none ∧
    r.departure_airport_icao ≠ none ∧ r.arrival_airport_icao ≠ none ∧
    (∀ a s, r.actual_departure_time = some a →
      r.scheduled_departure_time = some s → s ≤ a) := by
  unfold clean_aviation_data at h
  have h6 := mem_dedupSeen r _ [] h
  rcases List.mem_map.mp h6 with ⟨x, hx5, hfill⟩
  rcases List.mem_filter.mp hx5 with ⟨hx4, hactual⟩
  rcases List.mem_filter.mp hx4 with ⟨_, hcrit⟩
  subst hfill
  simp only [Bool.and_eq_true, Option.isSome_iff_ne_none] at hcrit
  obtain ⟨⟨⟨hfn, hsch⟩, hdep⟩, harr⟩ := hcrit
  refine ⟨hfn, hsch, hdep, harr, ?_⟩
  intro a s ha hs
  have ha' : x.actual_departure_time = some a := ha
  have hs' : x.scheduled_departure_time = some s := hs
  rw [ha', hs'] at hactual
  exact of_decide_eq_true hactual

theorem mem_insertSorted (x y : ℤ) (l : List ℤ) (h : y ∈ insertSorted x l) :
    y = x ∨ y ∈ l := by
  induction l with
  | nil =>
    rw [insertSorted] at h
    simp at h
    exact Or.inl h
  | cons z zs ih =>
    rw [insertSorted] at h
    by_cases hxz : x ≤ z
    · rw [if_pos hxz] at h
      rcases List.mem_cons.mp h with h1 | h2
      · exact Or.inl h1
      · exact Or.inr h2
    · rw [if_neg hxz] at h
      rcases List.mem_cons.mp h with h1 | h2
      · exact Or.inr (h1 ▸ List.mem_cons_self z zs)
      · rcases ih h2 with h3 | h4
        · exact Or.inl h3
        · exact Or.inr (List.mem_cons_of_mem z h4)

theorem mem_sortList (y : ℤ) (l : List ℤ) (h : y ∈ sortList l) : y ∈ l := by
  induction l with
  | nil => simpa [sortList] using h
  | cons z zs ih =>
    rw [sortList] at h
    rcases mem_insertSorted z y (sortList zs) h with h1 | h2
    · exact h1 ▸ List.mem_cons_self z zs
    · exact List.mem_cons_of_mem z (ih h2)

theorem median_nonneg (l : List ℤ) (hl : ∀ x ∈ l, 0 ≤ x) (m : ℤ)
    (hm : median l = some m) : 0 ≤ m := by
  have hmem : ∀ x ∈ sortList l, 0 ≤ x := fun x hx => hl x (mem_sortList x l hx)
  unfold median at hm
  by_cases h0 : (sortList l).length = 0
  · rw [if_pos h0] at hm
    simp at hm
  · rw [if_neg h0] at hm
    by_cases hodd : (sortList l).length % 2 = 1
    · rw [if_pos hodd] at hm
      exact hmem m (List.get?_mem hm)
    · rw [if_neg hodd] at hm
      cases ha : (sortList l).get? ((sortList l).length / 2 - 1) with
      | none =>
        rw [ha] at hm
        simp at hm
      | some a =>
        cases hb : (sortList l).get? ((sortList l).length / 2) with
        | none => rw [ha, hb] at hm; simp at hm
        | some b =>
          rw [ha, hb] at hm
          have hab : (a + b) / 2 = m := by simpa using hm
          have h0a := hmem a (List.get?_mem ha)
          have h0b := hmem b (List.get?_mem hb)
          rw [← hab]
          omega

theorem completedDurations_nonneg (df : List FlightRow)
    (hdf : ∀ r ∈ df, ∀ a s, r.actual_departure_time = some a →
      r.scheduled_departure_time = some s → s ≤ a)
    (key : PyStr × PyStr) : ∀ v ∈ completedDurations df key, 0 ≤ v := by
  intro v hv
  rcases List.mem_filterMap.mp hv with ⟨r, hr, hfr⟩
  cases hd : r.departure_airport_icao with
  | none => rw [hd] at hfr; simp at hfr
  | some d =>
    cases hA : r.arrival_airport_icao with
    | none => rw [hd, hA] at hfr; simp at hfr
    | some a =>
      cases hact : r.actual_departure_time with
      | none => rw [hd, hA, hact] at hfr; simp at hfr
      | some act =>
        cases hsch : r.scheduled_departure_time with
        | none => rw [hd, hA, hact, hsch] at hfr; simp at hfr
        | some sch =>
          rw [hd, hA, hact, hsch] at hfr
          have hfr' : (if (d, a) = key then some (act - sch) else none) = some v := hfr
          by_cases hkey : (d, a) = key
          · rw [if_pos hkey] at hfr'
            have hv' : act - sch = v := by simpa using hfr'
            have := hdf r hr act sch hact hsch
            omega
          · rw [if_neg hkey] at hfr'
            simp at hfr'

theorem imputeRow_eq (df : List FlightRow) (x : FlightRow) (d a : PyStr)
    (hd : x.departure_airport_icao = some d) (ha : x.arrival_airport_icao = some a) :
    imputeRow df x =
      if x.actual_departure_time = none then
        match median (completedDurations df (d, a)) with
        | some m =>
          { x with actual_departure_time := x.scheduled_departure_time.map (fun s => s + m) }
        | none => x
      else x := by
  unfold imputeRow
  rw [hd, ha]

/-- Claim C1: every row produced by `clean_aviation_data` followed by
`impute_missing_actual_times` has non-null `scheduled_departure_time`,
`departure_airport_icao` and `arrival_airport_icao`, and whenever the
(possibly imputed) `actual_departure_time` is non-null it is at least the
scheduled time. -/
theorem cleaned_flights_invariant (today : ℤ) (df : List FlightRow) (r : FlightRow)
    (h : r ∈ impute_missing_actual_times (clean_aviation_data today df)) :
    r.scheduled_departure_time ≠ none ∧ r.departure_airport_icao ≠ none ∧
    r.arrival_airport_icao ≠ none ∧
    ∀ a s, r.actual_departure_time = some a →
      r.scheduled_departure_time = some s → s ≤ a := by
  unfold impute_missing_actual_times at h
  rcases List.mem_map.mp h with ⟨x, hx, hr⟩
  obtain ⟨_, hsch, hdep, harr, hact⟩ := clean_aviation_data_sound today df x hx
  cases hxs : x.scheduled_departure_time with
  | none => exact absurd hxs hsch
  | some s0 =>
  cases hxd : x.departure_airport_icao with
  | none => exact absurd hxd hdep
  | some d0 =>
  cases hxa : x.arrival_airport_icao with
  | none => exact absurd hxa harr
  | some a0 =>
  subst hr
  rw [imputeRow_eq (clean_aviation_data today df) x d0 a0 hxd hxa]
  by_cases hmiss : x.actual_departure_time = none
  · rw [if_pos hmiss]
    cases hmed : median (completedDurations (clean_aviation_data today df) (d0, a0)) with
    | none =>
      exact ⟨hsch, hdep, harr, hact⟩
    | some m =>
      have hm0 : 0 ≤ m :=
        median_nonneg _
          (completedDurations_nonneg _
            (fun y hy => (clean_aviation_data_sound today df y hy).2.2.2.2) _)
          m hmed
      refine ⟨hsch, hdep, harr, ?_⟩
      intro a s ha hs
      have hs' : x.scheduled_departure_time = some s := hs
      have ha' : x.scheduled_departure_time.map (fun t => t + m) = some a := ha
      rw [hs'] at ha'
      simp at ha'
      omega
  · rw [if_neg hmiss]
    exact ⟨hsch, hdep, harr, hact⟩

def rowC1a : FlightRow :=
  { flight_number := some ['A'], flight_date := some 0,
    departure_airport_icao := some ['P'], arrival_airport_icao := some ['Q'],
    scheduled_departure_time := some 100, actual_departure_time := some 130,
    airline_name := some ['X'], airline_iata_code := some ['X'] }

def rowC1b : FlightRow :=
  { flight_number := some ['B'], flight_date := some 0,
    departure_airport_icao := some ['P'], arrival_airport_icao := some ['Q'],
    scheduled_departure_time := some 200, actual_departure_time := none,
    airline_name := some ['X'], airline_iata_code := some ['X'] }

def rowC1b' : FlightRow := { rowC1b with actual_departure_time := some 230 }

/-- Witness for C1: on a table with one completed flight (delay 30) and one
flight with a missing actual time on the same route, the imputed row
satisfies the invariant. -/
theorem cleaned_flights_invariant_witness :
    rowC1b'.scheduled_departure_time ≠ none ∧ rowC1b'.departure_airport_icao ≠ none ∧
    rowC1b'.arrival_airport_icao ≠ none ∧
    ∀ a s, rowC1b'.actual_departure_time = some a →
      rowC1b'.scheduled_departure_time = some s → s ≤ a :=
  cleaned_flights_invariant 20000 [rowC1a, rowC1b] rowC1b' (by decide)

/-- Claim C2: `impute_missing_actual_times` gives every row missing its
actual time, on a route with at least one completed flight, the value
`scheduled + median (actual − scheduled over the route's completed rows)`,
and leaves rows on routes with no completed flight unchanged (null). -/
theorem impute_median_per_route (df : List FlightRow) (i : ℕ) (r : FlightRow)
    (d a : PyStr) (s : ℤ)
    (hi : df.get? i = some r)
    (hd : r.departure_airport_icao = some d)
    (ha : r.arrival_airport_icao = some a)
    (hn : r.actual_departure_time = none)
    (hs : r.scheduled_departure_time = some s) :
    (∀ m, median (completedDurations df (d, a)) = some m →
      (impute_missing_actual_times df).get? i =
        some { r with actual_departure_time := some (s + m) }) ∧
    (median (completedDurations df (d, a)) = none →
      (impute_missing_actual_times df).get? i = some r) := by
  have hmap : (impute_missing_actual_times df).get? i = some (imputeRow df r) := by
    unfold impute_missing_actual_times
    rw [List.get?_map, hi]
    rfl
  constructor
  · intro m hm
    rw [hmap]
    have heq : imputeRow df r =
        { r with actual_departure_time :=
            r.scheduled_departure_time.map (fun t => t + m) } := by
      rw [imputeRow_eq df r d a hd ha, if_pos hn, hm]
    rw [heq, hs]
    rfl
  · intro hm
    rw [hmap]
    have heq : imputeRow df r = r := by
      rw [imputeRow_eq df r d a hd ha, if_pos hn, hm]
    rw [heq]

def rowC2a : FlightRow :=
  { flight_number := some ['A'], flight_date := some 0,
    departure_airport_icao := some ['P'], arrival_airport_icao := some ['Q'],
    scheduled_departure_time := some 0, actual_departure_time := some 30,
    airline_name := some ['X'], airline_iata_code := some ['X'] }

def rowC2b : FlightRow :=
  { flight_number := some ['B'], flight_date := some 0,
    departure_airport_icao := some ['P'], arrival_airport_icao := some ['Q'],
    scheduled_departure_time := some 0, actual_departure_time := some 50,
    airline_name := some ['X'], airline_iata_code := some ['X'] }

def rowC2m : FlightRow :=
  { flight_number := some ['C'], flight_date := some 0,
    departure_airport_icao := some ['P'], arrival_airport_icao := some ['Q'],
    scheduled_departure_time := some 1000, actual_departure_time := none,
    airline_name := some ['X'], airline_iata_code := some ['X'] }

def rowC2n : FlightRow :=
  { flight_number := some ['D'], flight_date := some 0,
    departure_airport_icao := some ['P'], arrival_airport_icao := some ['R'],
    scheduled_departure_time := some 1000, actual_departure_time := none,
    airline_name := some ['X'], airline_iata_code := some ['X'] }

def dfC2 : List FlightRow := [rowC2a, rowC2b, rowC2m, rowC2n]

/-- Witness for C2, realizing the spec's example: a route with completed
durations 30 and 50 imputes `scheduled + 40` for the row missing its actual
time, and a row on a route with no completed flight stays null. -/
theorem impute_median_per_route_witness :
    (impute_missing_actual_times dfC2).get? 2 =
      some { rowC2m with actual_departure_time := some 1040 } ∧
    (impute_missing_actual_times dfC2).get? 3 = some rowC2n :=
  ⟨(impute_median_per_route dfC2 2 rowC2m ['P'] ['Q'] 1000
      (by decide) rfl rfl rfl rfl).1 40 (by decide),
   (impute_median_per_route dfC2 3 rowC2n ['P'] ['R'] 1000
      (by decide) rfl rfl rfl rfl).2 (by decide)⟩

/-- Claim C5: `remove_cancelled_flights` removes exactly the rows whose
actual time is null and whose scheduled time is more than 1 day before
`now`. -/
theorem remove_cancelled_exact (now : ℤ) (df : List FlightRow) (r : FlightRow) :
    r ∈ remove_cancelled_flights now df ↔
      r ∈ df ∧ ¬ (r.actual_departure_time = none ∧
        ∃ s, r.scheduled_departure_time = some s ∧ now - s > 1440) := by
  unfold remove_cancelled_flights
  rw [List.mem_filter]
  apply and_congr_right
  intro _
  cases hact : r.actual_departure_time with
  | some a => simp [hact]
  | none =>
    cases hsch : r.scheduled_departure_time with
    | none => simp [hact, hsch]
    | some s => simp [hact, hsch]

def rowC5a : FlightRow :=
  { flight_number := some ['A'], flight_date := some 0,
    departure_airport_icao := some ['P'], arrival_airport_icao := some ['Q'],
    scheduled_departure_time := some (100000 - 2880), actual_departure_time := none,
    airline_name := some ['X'], airline_iata_code := some ['X'] }

def rowC5b : FlightRow :=
  { rowC5a with
    flight_number := some ['B']
    scheduled_departure_time := some (100000 - 720) }

def rowC5c : FlightRow :=
  { rowC5a with
    flight_number := some ['C']
    actual_departure_time := some 100000 }

def dfC5 : List FlightRow := [rowC5a, rowC5b, rowC5c]

/-- Witness for C5: with `now = 100000` minutes, a null-actual row scheduled
2 days (2880 min) in the past is removed, a null-actual row scheduled 12
hours (720 min) in the past is retained, and a completed row is retained. -/
theorem remove_cancelled_exact_witness :
    rowC5a ∉ remove_cancelled_flights 100000 dfC5 ∧
    rowC5b ∈ remove_cancelled_flights 100000 dfC5 ∧
    rowC5c ∈ remove_cancelled_flights 100000 dfC5 := by
  refine ⟨?_, ?_, ?_⟩
  · intro hmem
    rcases (remove_cancelled_exact 100000 dfC5 rowC5a).mp hmem with ⟨_, hno⟩
    exact hno ⟨rfl, 100000 - 2880, rfl, by decide⟩
  · refine (remove_cancelled_exact 100000 dfC5 rowC5b).mpr ⟨by decide, ?_⟩
    rintro ⟨_, s, hs, hgt⟩
    have hs' : s = 100000 - 720 := by
      have h := hs
      simp [rowC5b, rowC5a] at h
      omega
    rw [hs'] at hgt
    exact absurd hgt (by decide)
  · refine (remove_cancelled_exact 100000 dfC5 rowC5c).mpr ⟨by decide, ?_⟩
    rintro ⟨h1, _⟩
    simp [rowC5c, rowC5a] at h1

def rowC6a : FlightRow :=
  { flight_number := some ['A'], flight_date := some 0,
    departure_airport_icao := some ['P'], arrival_airport_icao := some ['Q'],
    scheduled_departure_time := some 100, actual_departure_time := some 130,
    airline_name := some ['A', 'F'], airline_iata_code := some ['A', 'F'] }

def rowC6b : FlightRow :=
  { rowC6a with
    flight_number := some ['B']
    airline_name := none
    airline_iata_code := none }

/-- Claim C6 (refuted — code bug): on a flights table whose airline columns
are object dtype (here: one present value, one missing), `clean_aviation_data`
leaves the missing airline fields as the literal string `"nan"` produced by
the earlier `astype(str)` pass, not as the sentinel `"undefined"` promised by
the function's docstring — `fillna("undefined")` finds no nulls left to
fill. -/
theorem clean_missing_airline_nan :
    (clean_aviation_data 20000 [rowC6a, rowC6b]).map (fun r => r.airline_name) =
      [some ['A', 'F'], some ['n', 'a', 'n']] ∧
    (clean_aviation_data 20000 [rowC6a, rowC6b]).map (fun r => r.airline_iata_code) =
      [some ['A', 'F'], some ['n', 'a', 'n']] ∧
    (['n', 'a', 'n'] : PyStr) ≠ ['u','n','d','e','f','i','n','e','d'] := by
  refine ⟨by decide, by decide, by decide⟩

-- ---------- Weather cleaning ----------

/-- One row of the weather table after `rename_weather_columns` (the
`created_at`/`source_timestamp` bookkeeping columns are omitted; they are
overwritten or dropped downstream). -/
structure WeatherRow where
  observation_time : Option ℤ
  temperature_celsius : Option ℤ
  wind_speed_kph : Option ℤ
  precipitation_mm : Option ℤ
  latitude : Option ℤ
  longitude : Option ℤ
  airport_iata_code : Option PyStr
  deriving DecidableEq

/-- `clean_weather`, first statement:
`weather_df.loc[weather_df["wind_speed_kph"] > 50, "wind_speed_kph"] = None`
(a missing reading compares false and is left missing). -/
def nullifyWind (w : Option ℤ) : Option ℤ :=
  match w with
  | some v => if v > 50 then none else some v
  | none => none

/-- One cell of `fillna(method="ffill")`: keep a present value, otherwise
take the last present value of the column. -/
def fillCell (c last : Option α) : Option α :=
  match c with
  | some v => some v
  | none => last

/-- `fillna(method="ffill")` over the whole frame, row by row, carrying the
last present value of every column. -/
def ffillRows (last : WeatherRow) : List WeatherRow → List WeatherRow
  | [] => []
  | r :: rest =>
    let r' : WeatherRow :=
      { observation_time := fillCell r.observation_time last.observation_time
        temperature_celsius := fillCell r.temperature_celsius last.temperature_celsius
        wind_speed_kph := fillCell r.wind_speed_kph last.wind_speed_kph
        precipitation_mm := fillCell r.precipitation_mm last.precipitation_mm
        latitude := fillCell r.latitude last.latitude
        longitude := fillCell r.longitude last.longitude
        airport_iata_code := fillCell r.airport_iata_code last.airport_iata_code }
    r' :: ffillRows r' rest

/-- The all-missing starting state of the forward fill. -/
def emptyWeatherRow : WeatherRow := ⟨none, none, none, none, none, none, none⟩

/-- `transform_utils.clean_weather`: null the wind readings above 50, then
forward-fill the frame (the `created_at`/`updated_at` stamping touches only
omitted columns). -/
def clean_weather (weather_df : List WeatherRow) : List WeatherRow :=
  ffillRows emptyWeatherRow
    (weather_df.map (fun r => { r with wind_speed_kph := nullifyWind r.wind_speed_kph }))

/-- Forward fill of a single column. -/
def ffillList (last : Option ℤ) : List (Option ℤ) → List (Option ℤ)
  | [] => []
  | c :: rest => fillCell c last :: ffillList (fillCell c last) rest

theorem ffillRows_wind (last : WeatherRow) (df : List WeatherRow) :
    (ffillRows last df).map (fun r => r.wind_speed_kph) =
      ffillList last.wind_speed_kph (df.map (fun r => r.wind_speed_kph)) := by
  induction df generalizing last with
  | nil => rfl
  | cons r rest ih =>
    simp only [ffillRows, List.map_cons, ffillList]
    rw [ih]

theorem ffillList_replicate_none (l : List (Option ℤ)) (i : ℕ)
    (h : l.take (i + 1) = List.replicate (i + 1) none) :
    (ffillList none l).get? i = some none := by
  induction l generalizing i with
  | nil =>
    rw [List.take_nil] at h
    exact absurd h.symm (by simp)
  | cons c rest ih =>
    rw [List.take_succ_cons, List.replicate_succ] at h
    injection h with h1 h2
    subst h1
    cases i with
    | zero => rfl
    | succ k => exact ih k h2

/-- Claim C8: `clean_weather` nulls every wind reading strictly above 50 and
forward-fills the wind column from the prior rows (the first conjunct is the
exact column characterization); a prefix with no valid reading stays null
(second conjunct). -/
theorem clean_weather_wind_ffill (weather_df : List WeatherRow) :
    ((clean_weather weather_df).map (fun r => r.wind_speed_kph) =
      ffillList none (weather_df.map (fun r => nullifyWind r.wind_speed_kph))) ∧
    ∀ i, (weather_df.map (fun r => nullifyWind r.wind_speed_kph)).take (i + 1) =
        List.replicate (i + 1) none →
      ((clean_weather weather_df).map (fun r => r.wind_speed_kph)).get? i = some none := by
  have hcol : (clean_weather weather_df).map (fun r => r.wind_speed_kph) =
      ffillList none (weather_df.map (fun r => nullifyWind r.wind_speed_kph)) := by
    unfold clean_weather
    rw [ffillRows_wind, List.map_map]
    rfl
  refine ⟨hcol, ?_⟩
  intro i hi
  rw [hcol]
  exact ffillList_replicate_none _ i hi

def wrowC8 (w : Option ℤ) : WeatherRow :=
  { observation_time := some 0, temperature_celsius := some 10,
    wind_speed_kph := w, precipitation_mm := some 0,
    latitude := some 49, longitude := some 2,
    airport_iata_code := some ['C','D','G'] }

def dfC8 : List WeatherRow := [wrowC8 (some 60), wrowC8 (some 30), wrowC8 (some 70)]

/-- Witness for C8: readings `[60, 30, 70]` become `[null, 30, 30]` — the
leading reading above 50 stays null (no prior valid value), the later one is
forward-filled from the prior row. -/
theorem clean_weather_wind_ffill_witness :
    ((clean_weather dfC8).map (fun r => r.wind_speed_kph)).get? 0 = some none ∧
    (clean_weather dfC8).map (fun r => r.wind_speed_kph) = [none, some 30, some 30] :=
  ⟨(clean_weather_wind_ffill dfC8).2 0 (by decide),
   ((clean_weather_wind_ffill dfC8).1).trans (by decide)⟩

-- ---------- Flag columns and the night/day aggregates ----------

/-- A flight row with the flag columns added by `add_flag_columns`. -/
structure FlaggedRow extends FlightRow where
  is_weekend : Bool
  is_night_flight : Bool
  is_morning_flight : Bool
  deriving DecidableEq

/-- pandas `Series.between(lo, hi)`: inclusive on both ends by default. -/
def pdBetween (x lo hi : ℤ) : Bool := decide (lo ≤ x) && decide (x ≤ hi)

/-- `is_weekend = scheduled_departure_time.dt.weekday >= 5` (`NaT` gives
false). -/
def weekendFlag (r : FlightRow) : Bool :=
  match r.scheduled_departure_time with
  | some t => decide (5 ≤ weekdayOf t)
  | none => false

/-- `is_night_flight = scheduled_departure_time.dt.hour.between(0, 6)`
(`NaT` gives false). -/
def nightFlag (r : FlightRow) : Bool :=
  match r.scheduled_departure_time with
  | some t => pdBetween (hourOf t) 0 6
  | none => false

/-- `is_morning_flight = scheduled_departure_time.dt.hour.between(6, 11)`
(`NaT` gives false). -/
def morningFlag (r : FlightRow) : Bool :=
  match r.scheduled_departure_time with
  | some t => pdBetween (hourOf t) 6 11
  | none => false

/-- `transform_utils.add_flag_columns`. -/
def add_flag_columns (flight_df : List FlightRow) : List FlaggedRow :=
  flight_df.map (fun r =>
    { toFlightRow := r
      is_weekend := weekendFlag r
      is_night_flight := nightFlag r
      is_morning_flight := morningFlag r })

/-- `night_flight_count` of the gold aggregation:
`COUNT(*) FILTER (WHERE f.is_night_flight)`. -/
def night_flight_count (rows : List FlaggedRow) : ℕ :=
  (rows.filter (fun r => r.is_night_flight)).length

/-- `day_flight_count` of the gold aggregation:
`COUNT(*) FILTER (WHERE NOT f.is_night_flight)`. -/
def day_flight_count (rows : List FlaggedRow) : ℕ :=
  (rows.filter (fun r => ! r.is_night_flight)).length

def rowC7 : FlightRow :=
  { flight_number := some ['A'], flight_date := some 0,
    departure_airport_icao := some ['P'], arrival_airport_icao := some ['Q'],
    scheduled_departure_time := some 360, actual_departure_time := some 400,
    airline_name := some ['X'], airline_iata_code := some ['X'] }

/-- Claim C7 counterexample: a flight scheduled at hour 6 (minute 360) gets
`is_night_flight = true` and is counted in `night_flight_count`, not as a
day flight — `between(0, 6)` is inclusive, so the night window is `[0, 6]`,
not `[0, 6)` as claimed. -/
theorem night_flag_at_hour_six :
    hourOf 360 = 6 ∧
    (add_flag_columns [rowC7]).map (fun r => r.is_night_flight) = [true] ∧
    night_flight_count (add_flag_columns [rowC7]) = 1 ∧
    day_flight_count (add_flag_columns [rowC7]) = 0 := by
  refine ⟨by decide, by decide, by decide, by decide⟩

/-- Claim C7 as amended: a flight is flagged (and counted) as a night flight
iff the hour of its scheduled departure time lies in `[0, 6]` — hours 0
through 6 inclusive; a flight scheduled at hour 7 or later counts as a day
flight. -/
theorem night_flag_iff_hour_le_six (df : List FlightRow) (x : FlaggedRow)
    (hx : x ∈ add_flag_columns df) :
    x.is_night_flight = true ↔
      ∃ t, x.scheduled_departure_time = some t ∧ 0 ≤ hourOf t ∧ hourOf t ≤ 6 := by
  rcases List.mem_map.mp hx with ⟨r, _, hxr⟩
  subst hxr
  cases hs : r.scheduled_departure_time with
  | none => simp [nightFlag, hs]
  | some t0 => simp [nightFlag, hs, pdBetween]

def rowC7w : FlightRow := { rowC7 with scheduled_departure_time := some 300 }

def flaggedC7w : FlaggedRow :=
  { toFlightRow := rowC7w
    is_weekend := false
    is_night_flight := true
    is_morning_flight := false }

/-- Witness for the amended C7: a flight scheduled at hour 5 (minute 300) is
flagged as a night flight. -/
theorem night_flag_iff_hour_le_six_witness : flaggedC7w.is_night_flight = true :=
  (night_flag_iff_hour_le_six [rowC7w] flaggedC7w (by decide)).mpr
    ⟨300, rfl, by decide, by decide⟩

-- ---------- Weather enrichment join ----------

/-- A flight row with the `rounded_scheduled_hour` column added by
`add_nearest_hour_column`. -/
structure HourRow extends FlaggedRow where
  rounded_scheduled_hour : Option ℤ
  deriving DecidableEq

/-- `Series.dt.round("h")`: round to the nearest hour, ties to the even
hour. -/
def roundHour (t : ℤ) : ℤ :=
  if Int.emod t 60 < 30 then 60 * Int.ediv t 60
  else if 30 < Int.emod t 60 then 60 * (Int.ediv t 60 + 1)
  else if Int.emod (Int.ediv t 60) 2 = 0 then 60 * Int.ediv t 60
  else 60 * (Int.ediv t 60 + 1)

/-- `transform_utils.add_nearest_hour_column` with the pipeline's arguments
(`time_col="scheduled_departure_time"`, `new_col="rounded_scheduled_hour"`;
rounding `NaT` gives `NaT`). -/
def add_nearest_hour_column (df : List FlaggedRow) : List HourRow :=
  df.map (fun r =>
    { toFlaggedRow := r
      rounded_scheduled_hour := r.scheduled_departure_time.map roundHour })

/-- One row of `pd.merge(flight_df, weather_df, ..., how="inner")`: the
matched flight and weather rows side by side. (The merge then drops the
weather-side key columns and bookkeeping columns from the result; that
column pruning does not change which rows exist, so the model keeps the
whole weather row.) -/
structure EnrichedRow where
  flight : HourRow
  weather : WeatherRow
  deriving DecidableEq

/-- `weather_df["airport_iata_code"] = weather_df["airport_iata_code"].str.upper()`
(`.str.upper()` leaves a missing cell missing). -/
def upperWeatherCode (w : WeatherRow) : WeatherRow :=
  { w with airport_iata_code := w.airport_iata_code.map pyUpper }

/-- `flight_df["departure_airport_icao"] = flight_df["departure_airport_icao"].str.upper()`. -/
def upperDepCode (f : HourRow) : HourRow :=
  { f with departure_airport_icao := f.departure_airport_icao.map pyUpper }

/-- `transform_utils.enrich_with_weather`: uppercase both key columns, then
the inner merge on `(rounded_scheduled_hour, departure_airport_icao)` =
`(observation_time, airport_iata_code)` — one output row per matching pair,
left row order first. -/
def enrich_with_weather (flight_df : List HourRow) (weather_df : List WeatherRow) :
    List EnrichedRow :=
  (flight_df.map upperDepCode).flatMap (fun f =>
    ((weather_df.map upperWeatherCode).filter (fun w =>
      decide (w.observation_time = f.rounded_scheduled_hour) &&
      decide (w.airport_iata_code = f.departure_airport_icao))).map (fun w =>
        { flight := f, weather := w }))

/-- Claim C3: `enrich_with_weather` is exactly the inner join — an output
row exists precisely for each pair of a flight row and a weather row whose
`rounded_scheduled_hour` equals the weather `observation_time` and whose
departure code equals the weather airport code after uppercasing both sides
(first conjunct), and a flight row matching no weather row is absent from
the output (second conjunct). -/
theorem enrich_with_weather_inner_join (flight_df : List HourRow)
    (weather_df : List WeatherRow) :
    (∀ e, e ∈ enrich_with_weather flight_df weather_df ↔
      ∃ f, f ∈ flight_df ∧ ∃ w, w ∈ weather_df ∧
        e = { flight := upperDepCode f, weather := upperWeatherCode w } ∧
        w.observation_time = f.rounded_scheduled_hour ∧
        w.airport_iata_code.map pyUpper = f.departure_airport_icao.map pyUpper) ∧
    (∀ f, f ∈ flight_df →
      (∀ w, w ∈ weather_df → ¬ (w.observation_time = f.rounded_scheduled_hour ∧
        w.airport_iata_code.map pyUpper = f.departure_airport_icao.map pyUpper)) →
      ∀ e, e ∈ enrich_with_weather flight_df weather_df →
        e.flight ≠ upperDepCode f) := by
  have hchar : ∀ e, e ∈ enrich_with_weather flight_df weather_df ↔
      ∃ f, f ∈ flight_df ∧ ∃ w, w ∈ weather_df ∧
        e = { flight := upperDepCode f, weather := upperWeatherCode w } ∧
        w.observation_time = f.rounded_scheduled_hour ∧
        w.airport_iata_code.map pyUpper = f.departure_airport_icao.map pyUpper := by
    intro e
    unfold enrich_with_weather
    rw [List.mem_flatMap]
    constructor
    · rintro ⟨f', hf', he⟩
      rcases List.mem_map.mp hf' with ⟨f, hf, hff⟩
      rcases List.mem_map.mp he with ⟨w', hw', hew⟩
      rcases List.mem_filter.mp hw' with ⟨hw'mem, hcond⟩
      rcases List.mem_map.mp hw'mem with ⟨w, hw, hww⟩
      subst hff
      subst hww
      subst hew
      rw [Bool.and_eq_true, decide_eq_true_eq, decide_eq_true_eq] at hcond
      refine ⟨f, hf, w, hw, rfl, ?_, ?_⟩
      · exact hcond.1
      · exact hcond.2
    · rintro ⟨f, hf, w, hw, he, h1, h2⟩
      subst he
      refine ⟨upperDepCode f, List.mem_map_of_mem upperDepCode hf, ?_⟩
      refine List.mem_map.mpr ⟨upperWeatherCode w, ?_, rfl⟩
      refine List.mem_filter.mpr ⟨List.mem_map_of_mem upperWeatherCode hw, ?_⟩
      rw [Bool.and_eq_true, decide_eq_true_eq, decide_eq_true_eq]
      exact ⟨h1, h2⟩
  refine ⟨hchar, ?_⟩
  intro f hf hnomatch e he heq
  rcases (hchar e).mp he with ⟨f0, _, w0, hw0, he0, hobs, hcode⟩
  apply hnomatch w0 hw0
  have hflight : upperDepCode f0 = upperDepCode f := by
    rw [← heq, he0]
  have hrh : f0.rounded_scheduled_hour = f.rounded_scheduled_hour := by
    have h1 : (upperDepCode f0).rounded_scheduled_hour =
        (upperDepCode f).rounded_scheduled_hour := by rw [hflight]
    exact h1
  have hdp : f0.departure_airport_icao.map pyUpper =
      f.departure_airport_icao.map pyUpper := by
    have h1 : (upperDepCode f0).departure_airport_icao =
        (upperDepCode f).departure_airport_icao := by rw [hflight]
    exact h1
  constructor
  · rw [← hrh]; exact hobs
  · rw [← hdp]; exact hcode

def fC3a : HourRow :=
  { flight_number := some ['A'], flight_date := some 0,
    departure_airport_icao := some ['C','D','G'],
    arrival_airport_icao := some ['J','F','K'],
    scheduled_departure_time := some 845, actual_departure_time := some 850,
    airline_name := some ['X'], airline_iata_code := some ['X'],
    is_weekend := false, is_night_flight := false, is_morning_flight := false,
    rounded_scheduled_hour := some 840 }

def fC3b : HourRow :=
  { fC3a with
    flight_number := some ['B']
    rounded_scheduled_hour := some 900 }

def wC3 : WeatherRow :=
  { observation_time := some 840, temperature_celsius := some 10,
    wind_speed_kph := some 20, precipitation_mm := some 0,
    latitude := some 49, longitude := some 2,
    airport_iata_code := some ['c','d','g'] }

/-- Witness for C3: a flight at rounded hour 840 from "CDG" joins the
weather row observed at 840 for "cdg" (codes equal after uppercasing), and
a flight at rounded hour 900 with no matching weather row is absent from
the output. -/
theorem enrich_with_weather_inner_join_witness :
    ({ flight := upperDepCode fC3a, weather := upperWeatherCode wC3 } : EnrichedRow) ∈
      enrich_with_weather [fC3a, fC3b] [wC3] ∧
    ∀ e, e ∈ enrich_with_weather [fC3a, fC3b] [wC3] → e.flight ≠ upperDepCode fC3b :=
  ⟨((enrich_with_weather_inner_join [fC3a, fC3b] [wC3]).1 _).mpr
      ⟨fC3a, by decide, wC3, by decide, rfl, by decide, by decide⟩,
   fun e he =>
     (enrich_with_weather_inner_join [fC3a, fC3b] [wC3]).2 fC3b (by decide)
       (by decide) e he⟩

-- ---------- API client (`api_client.py`) ----------

/-- The exception classes relevant to the client's control flow.
`requestException` covers `requests.RequestException` and its subclasses
(including the `HTTPError` raised by `raise_for_status`); `retryError` is
`tenacity.RetryError`, which is *not* a `requests.RequestException`;
`keyError`/`indexError` arise from dictionary and list indexing. -/
inductive PyExc where
  | requestException
  | retryError
  | keyError
  | indexError
  deriving DecidableEq

/-- The retry loop of `@retry(stop=stop_after_attempt(3), wait=wait_fixed(1))`
around one `session.get` + `raise_for_status` + `json()` call: `outcomes i`
is the result of the `i`-th underlying HTTP attempt; any exception triggers
another attempt, and once the 3 attempts are exhausted tenacity raises
`RetryError` (the decorator does not set `reraise=True`). -/
def retryFrom (outcomes : ℕ → Except PyExc α) : ℕ → ℕ → Except PyExc α
  | _, 0 => Except.error PyExc.retryError
  | i, Nat.succ n =>
    match outcomes i with
    | Except.ok v => Except.ok v
    | Except.error _ => retryFrom outcomes (i + 1) n

/-- `ApiClient._make_request` on a given sequence of attempt outcomes. -/
def make_request (outcomes : ℕ → Except PyExc α) : Except PyExc α :=
  retryFrom outcomes 0 3

/-- One airport of the `get_aviation_edge_flights` loop: its code and the
outcomes of its HTTP attempts (each attempt either returns the parsed
record list or raises). The per-record flattening into `flight_info`
dictionaries does not affect the control flow modelled here, so records are
an opaque type `α`. -/
structure AirportFetch (α : Type) where
  code : PyStr
  outcomes : ℕ → Except PyExc (List α)

/-- The `for airport_code in airports` loop of `get_aviation_edge_flights`:
`try: flights = self._make_request(...); all_flights.extend(...)`
`except requests.RequestException: log and continue` — any other exception
(in particular `tenacity.RetryError`) propagates and aborts the whole
call. -/
def fetchLoop : List (AirportFetch α) → List α → Except PyExc (List α)
  | [], acc => Except.ok acc
  | a :: rest, acc =>
    match make_request a.outcomes with
    | Except.ok recs => fetchLoop rest (acc ++ recs)
    | Except.error PyExc.requestException => fetchLoop rest acc
    | Except.error e => Except.error e

/-- `ApiClient.get_aviation_edge_flights`, abstracted over the per-airport
HTTP outcomes. -/
def get_aviation_edge_flights (airports : List (AirportFetch α)) :
    Except PyExc (List α) :=
  fetchLoop airports []

/-- Claim C4 (refuted — code bug): when the first airport's requests fail
persistently (every attempt raises a `requests.RequestException`, e.g. an
`HTTPError` from `raise_for_status`), the retry decorator exhausts its 3
attempts and raises `tenacity.RetryError`; the loop's
`except requests.RequestException` does not catch it, so the whole call
aborts instead of skipping the airport and returning the second airport's
records. -/
theorem persistent_airport_failure_aborts_fetch :
    get_aviation_edge_flights
        [⟨['C','D','G'], fun _ => Except.error PyExc.requestException⟩,
         ⟨['O','R','Y'], fun _ => Except.ok [(7 : ℤ)]⟩] =
      Except.error PyExc.retryError ∧
    get_aviation_edge_flights
        [⟨['C','D','G'], fun _ => Except.error PyExc.requestException⟩,
         ⟨['O','R','Y'], fun _ => Except.ok [(7 : ℤ)]⟩] ≠
      Except.ok [(7 : ℤ)] := by
  refine ⟨rfl, ?_⟩
  intro h
  exact Except.noConfusion ((rfl :
    get_aviation_edge_flights
        [⟨['C','D','G'], fun _ => Except.error PyExc.requestException⟩,
         ⟨['O','R','Y'], fun _ => Except.ok [(7 : ℤ)]⟩] =
      Except.error PyExc.retryError).symm.trans h)

-- ---------- Weather fetch (`get_weather_raw_for_coords`) ----------

/-- The `"hourly"` block of an Open-Meteo response: each expected field is
present (a list of hourly values) or absent. -/
structure HourlyBlock where
  temperature_2m : Option (List ℤ)
  windspeed_10m : Option (List ℤ)
  precipitation : Option (List ℤ)
  deriving DecidableEq

/-- A parsed Open-Meteo JSON response, reduced to the structure the client
inspects. -/
structure WeatherResp where
  hourly : Option HourlyBlock
  deriving DecidableEq

/-- One raw hourly weather record built by the list comprehension (the
timestamp is the hour index of `pd.date_range(...)`; `lat`/`lon`/
`created_at`/`source_timestamp` are constants of the call and omitted). -/
structure RawHourRec where
  hourIndex : ℕ
  temperature : ℤ
  wind_speed : ℤ
  precipitation : ℤ
  deriving DecidableEq

/-- Python `data["hourly"][field][i]`: an absent field raises `KeyError`,
an index past the end raises `IndexError`. -/
def pyFieldIndex (l : Option (List ℤ)) (i : ℕ) : Except PyExc ℤ :=
  match l with
  | none => Except.error PyExc.keyError
  | some xs =>
    match xs.get? i with
    | some v => Except.ok v
    | none => Except.error PyExc.indexError

/-- The list comprehension over `enumerate(times)`: builds one record per
hour index, in order, indexing `temperature_2m`, `windspeed_10m` and
`precipitation`; the first failing lookup raises. -/
def buildHourRecords (h : HourlyBlock) : List ℕ → Except PyExc (List RawHourRec)
  | [] => Except.ok []
  | i :: rest =>
    match pyFieldIndex h.temperature_2m i with
    | Except.error e => Except.error e
    | Except.ok t =>
      match pyFieldIndex h.windspeed_10m i with
      | Except.error e => Except.error e
      | Except.ok w =>
        match pyFieldIndex h.precipitation i with
        | Except.error e => Except.error e
        | Except.ok p =>
          match buildHourRecords h rest with
          | Except.error e => Except.error e
          | Except.ok rs => Except.ok (⟨i, t, w, p⟩ :: rs)

/-- `ApiClient.get_weather_raw_for_coords` on an already-fetched response:
`if "hourly" not in data or "temperature_2m" not in data["hourly"]:` log a
warning and return `[]`; otherwise build the 24 hourly records. -/
def get_weather_raw_for_coords (resp : WeatherResp) :
    Except PyExc (List RawHourRec) :=
  match resp.hourly with
  | none => Except.ok []
  | some h =>
    match h.temperature_2m with
    | none => Except.ok []
    | some _ => buildHourRecords h (List.range 24)

/-- Claim C9 counterexample: a response whose `hourly` block has
`temperature_2m` but is missing `windspeed_10m` passes the guard and then
raises `KeyError` at `data["hourly"]["windspeed_10m"]` — the whole fetch
fails instead of yielding an empty result. -/
theorem missing_windspeed_raises :
    get_weather_raw_for_coords
        { hourly := some { temperature_2m := some (List.replicate 24 0),
                           windspeed_10m := none,
                           precipitation := some (List.replicate 24 0) } } =
      Except.error PyExc.keyError ∧
    get_weather_raw_for_coords
        { hourly := some { temperature_2m := some (List.replicate 24 0),
                           windspeed_10m := none,
                           precipitation := some (List.replicate 24 0) } } ≠
      Except.ok [] := by
  refine ⟨rfl, ?_⟩
  intro h
  exact Except.noConfusion ((rfl :
    get_weather_raw_for_coords
        { hourly := some { temperature_2m := some (List.replicate 24 0),
                           windspeed_10m := none,
                           precipitation := some (List.replicate 24 0) } } =
      Except.error PyExc.keyError).symm.trans h)

/-- Claim C9 as amended: only the absence of the `hourly` block or of its
`temperature_2m` field degrades to an empty result with a warning; a
response missing the other expected hourly fields (`windspeed_10m`,
`precipitation`) raises instead. -/
theorem weather_guard_empty_result (resp : WeatherResp)
    (h : resp.hourly = none ∨
      ∃ hb, resp.hourly = some hb ∧ hb.temperature_2m = none) :
    get_weather_raw_for_coords resp = Except.ok [] := by
  unfold get_weather_raw_for_coords
  rcases h with h1 | ⟨hb, h2, h3⟩
  · rw [h1]
  · rw [h2]
    show (match hb.temperature_2m with
      | none => Except.ok []
      | some _ => buildHourRecords hb (List.range 24)) = Except.ok []
    rw [h3]

/-- Witness for the amended C9: a response whose `hourly` block lacks
`temperature_2m` yields the empty record list. -/
theorem weather_guard_empty_result_witness :
    get_weather_raw_for_coords
        { hourly := some { temperature_2m := none,
                           windspeed_10m := some (List.replicate 24 0),
                           precipitation := some (List.replicate 24 0) } } =
      Except.ok [] :=
  weather_guard_empty_result _ (Or.inr ⟨_, rfl, rfl⟩)

end FlightsPipeline
